import Mathlib

/-!
# Verification of the `Movies` DynamoDB facade

Shallow embedding of `src/getting_started_movies.py` and `src/create_table.py`.

The Python code is a thin facade over the boto3 DynamoDB SDK.  We embed:

* exact decimal numbers (`Dec`) together with the `Decimal(str(x))`
  conversion pipeline used by `add_movie` / `update_movie`
  (rendering a decimal to its plain string form and parsing it back);
* DynamoDB items as association lists of attribute values (`AttrVal`, `Item`)
  and the table as a list of items keyed by the `year` (number) partition key
  and `title` (string) sort key;
* the service-side behaviour of `get_item` / `put_item` / `delete_item` /
  `update_item` / `query` / `scan` (the scan and query responses are paged by
  an arbitrary positive page limit with an index-valued continuation token,
  modelling `LastEvaluatedKey` / `ExclusiveStartKey`);
* each method of the `Movies` class as a function over an explicit state
  (`DB`), where `DB.handle` models the `self.table` member (`none` models the
  Python value `None`) and `DB.store` models the remote table contents.
  Python exceptions are modelled by the `PyErr` error type: `ClientError`
  raised by the SDK, `AttributeError` from dereferencing `None`,
  `KeyError` from a missing dictionary key, and `UnboundLocalError` from
  reading a local variable that was never assigned.
-/

/-! ## Exact decimal numbers

`Dec` is an exact decimal `mant / 10 ^ exp`, the model of Python's
`decimal.Decimal` values as they occur in this program (a coefficient with a
non-positive decimal exponent). -/

/-- An exact decimal number: the value `mant / 10 ^ exp`. -/
structure Dec where
  mant : Int
  exp : Nat
deriving DecidableEq, Repr

/-- The rational value of a `Dec`. -/
def decVal (d : Dec) : ℚ := (d.mant : ℚ) / (10 : ℚ) ^ d.exp

/-- A `Dec` holding an integer (DynamoDB stores the `year` key as a number). -/
def Dec.ofInt (n : Int) : Dec := ⟨n, 0⟩

/-- Decimal digits of a natural number, most significant first; `0` is the
single digit `[0]`. -/
def decDigits (n : Nat) : List Nat :=
  if n = 0 then [0] else (Nat.digits 10 n).reverse

/-- Value of a big-endian list of decimal digits. -/
def digitsToNat (ds : List Nat) : Nat :=
  ds.foldl (fun a d => a * 10 + d) 0

theorem digitsToNat_foldl (ds : List Nat) (a : Nat) :
    ds.foldl (fun a d => a * 10 + d) a = a * 10 ^ ds.length + digitsToNat ds := by
  induction ds generalizing a with
  | nil => simp [digitsToNat]
  | cons d ds ih =>
    have h2 : digitsToNat (d :: ds) = d * 10 ^ ds.length + digitsToNat ds := by
      show ds.foldl (fun a d => a * 10 + d) (0 * 10 + d) = _
      rw [ih (0 * 10 + d)]
      ring
    rw [List.foldl_cons, ih (a * 10 + d), h2, List.length_cons]
    ring

theorem digitsToNat_append (xs ys : List Nat) :
    digitsToNat (xs ++ ys) = digitsToNat xs * 10 ^ ys.length + digitsToNat ys := by
  simp only [digitsToNat, List.foldl_append]
  exact digitsToNat_foldl ys (digitsToNat xs)

theorem digitsToNat_replicate_zero (k : Nat) :
    digitsToNat (List.replicate k 0) = 0 := by
  induction k with
  | zero => simp [digitsToNat]
  | succ k ih =>
    simp only [List.replicate_succ, digitsToNat, List.foldl_cons] at ih ⊢
    simpa using ih

theorem digitsToNat_reverse_digits (n : Nat) :
    digitsToNat ((Nat.digits 10 n).reverse) = n := by
  induction n using Nat.strong_induction_on with
  | _ n ih =>
    rcases Nat.eq_zero_or_pos n with h0 | hpos
    · simp [h0, digitsToNat]
    · rw [Nat.digits_def' (by norm_num : 1 < 10) hpos, List.reverse_cons,
        digitsToNat_append, ih (n / 10) (Nat.div_lt_self hpos (by norm_num))]
      have h1 : digitsToNat [n % 10] = n % 10 := by simp [digitsToNat]
      rw [h1]
      simp only [List.length_cons, List.length_nil, pow_one]
      omega

theorem digitsToNat_decDigits (n : Nat) : digitsToNat (decDigits n) = n := by
  unfold decDigits
  split
  · simp [digitsToNat, *]
  · exact digitsToNat_reverse_digits n

theorem decDigits_lt (n : Nat) : ∀ d ∈ decDigits n, d < 10 := by
  intro d hd
  unfold decDigits at hd
  split at hd
  · simp at hd; omega
  · exact Nat.digits_lt_base (by norm_num) (List.mem_reverse.mp hd)

theorem decDigits_ne_nil (n : Nat) : decDigits n ≠ [] := by
  unfold decDigits
  split
  · simp
  · simpa [List.reverse_eq_nil_iff] using Nat.digits_ne_nil_iff_ne_zero.mpr ‹¬n = 0›

/-! ## Rendering a `Dec` to its plain string form (`str(Decimal)`) -/

/-- The character of a single decimal digit. -/
def digitToChar (d : Nat) : Char := Char.ofNat (48 + d)

/-- The digits of the coefficient `n`, padded with leading zeros so that at
least one digit precedes the decimal point when `e` fractional digits are
split off. -/
def paddedDigits (n e : Nat) : List Nat :=
  if (decDigits n).length ≤ e then
    List.replicate (e + 1 - (decDigits n).length) 0 ++ decDigits n
  else decDigits n

/-- The unsigned body of the plain rendering of `n / 10 ^ e`: the padded
digits with a decimal point inserted before the last `e` of them
(no point at all when `e = 0`). -/
def renderBody (n e : Nat) : List Char :=
  if e = 0 then (paddedDigits n e).map digitToChar
  else ((paddedDigits n e).take ((paddedDigits n e).length - e)).map digitToChar ++
    '.' :: ((paddedDigits n e).drop ((paddedDigits n e).length - e)).map digitToChar

/-- Plain-format rendering of an exact decimal, the model of Python's
`str` on a `Decimal` with non-positive exponent (e.g. `⟨87, 1⟩ ↦ "8.7"`,
`⟨5, 3⟩ ↦ "0.005"`, `⟨-87, 1⟩ ↦ "-8.7"`). -/
def decRenderChars (d : Dec) : List Char :=
  if d.mant < 0 then '-' :: renderBody d.mant.natAbs d.exp
  else renderBody d.mant.natAbs d.exp

/-! ## Parsing a plain decimal string (`Decimal(str)`) -/

/-- Decimal digit value of a character, `none` for a non-digit. -/
def charToDigit (c : Char) : Option Nat :=
  if '0' ≤ c ∧ c ≤ '9' then some (c.toNat - 48) else none

/-- Parse a run of decimal digit characters; fails on any non-digit. -/
def parseAllDigits : List Char → Option (List Nat)
  | [] => some []
  | c :: cs =>
    match charToDigit c, parseAllDigits cs with
    | some d, some ds => some (d :: ds)
    | _, _ => none

/-- Split a character list at the first `'.'`; the second component is
`none` when there is no decimal point. -/
def splitDot : List Char → List Char × Option (List Char)
  | [] => ([], none)
  | c :: cs =>
    if c = '.' then ([], some cs)
    else
      let r := splitDot cs
      (c :: r.1, r.2)

/-- Parse an unsigned plain decimal string into an exact decimal: digits
before the point form the integer part, digits after it the fractional part,
and the exponent is the number of fractional digits.  Requires at least one
digit overall. -/
def parseUnsignedDec (cs : List Char) : Option Dec :=
  match parseAllDigits (splitDot cs).1, parseAllDigits ((splitDot cs).2.getD []) with
  | some ids, some fds =>
    if ids.length + fds.length = 0 then none
    else some ⟨(digitsToNat (ids ++ fds) : Int), fds.length⟩
  | _, _ => none

/-- The model of `decimal.Decimal(s)` on the plain-format fragment of the
constructor's grammar: an optional leading minus sign followed by an
unsigned plain decimal string. -/
def pyDecimal (cs : List Char) : Option Dec :=
  if cs.head? = some '-' then (parseUnsignedDec cs.tail).map (fun d => ⟨-d.mant, d.exp⟩)
  else if cs = [] then none
  else parseUnsignedDec cs

/-- The model of the conversion `Decimal(str(x))` that `add_movie` and
`update_movie` apply to the incoming rating. -/
def pyDecimalStr (d : Dec) : Option Dec := pyDecimal (decRenderChars d)

/-! ## The `Decimal(str(x))` round trip is exact -/

theorem charToDigit_digitToChar {d : Nat} (h : d < 10) :
    charToDigit (digitToChar d) = some d := by
  interval_cases d <;> decide

theorem digitToChar_ne_dot {d : Nat} (h : d < 10) : digitToChar d ≠ '.' := by
  interval_cases d <;> decide

theorem digitToChar_ne_dash {d : Nat} (h : d < 10) : digitToChar d ≠ '-' := by
  interval_cases d <;> decide

theorem parseAllDigits_map {ds : List Nat} (h : ∀ d ∈ ds, d < 10) :
    parseAllDigits (ds.map digitToChar) = some ds := by
  induction ds with
  | nil => rfl
  | cons d ds ih =>
    have hd : d < 10 := h d (by simp)
    simp only [List.map_cons, parseAllDigits, charToDigit_digitToChar hd,
      ih (fun x hx => h x (by simp [hx]))]

theorem splitDot_no_dot {cs : List Char} (h : '.' ∉ cs) :
    splitDot cs = (cs, none) := by
  induction cs with
  | nil => rfl
  | cons c cs ih =>
    have hc : c ≠ '.' := by intro hc; exact h (by simp [hc])
    simp only [splitDot, if_neg hc, ih (fun hm => h (by simp [hm]))]

theorem splitDot_append {xs : List Char} (ys : List Char) (h : '.' ∉ xs) :
    splitDot (xs ++ '.' :: ys) = (xs, some ys) := by
  induction xs with
  | nil => simp [splitDot]
  | cons c cs ih =>
    have hc : c ≠ '.' := by intro hc; exact h (by simp [hc])
    simp only [List.cons_append, splitDot, if_neg hc, List.append_eq,
      ih (fun hm => h (by simp [hm]))]

theorem paddedDigits_lt (n e : Nat) : ∀ d ∈ paddedDigits n e, d < 10 := by
  intro d hd
  unfold paddedDigits at hd
  split at hd
  · rcases List.mem_append.mp hd with hz | hk
    · have := List.eq_of_mem_replicate hz; omega
    · exact decDigits_lt n d hk
  · exact decDigits_lt n d hd

theorem digitsToNat_paddedDigits (n e : Nat) :
    digitsToNat (paddedDigits n e) = n := by
  unfold paddedDigits
  split
  · rw [digitsToNat_append, digitsToNat_replicate_zero, digitsToNat_decDigits]
    ring
  · exact digitsToNat_decDigits n

theorem lt_length_paddedDigits (n e : Nat) : e < (paddedDigits n e).length := by
  unfold paddedDigits
  have hne := decDigits_ne_nil n
  have : 0 < (decDigits n).length := List.length_pos.mpr hne
  split
  · simp only [List.length_append, List.length_replicate]
    omega
  · omega

theorem parseUnsignedDec_renderBody (n e : Nat) :
    parseUnsignedDec (renderBody n e) = some ⟨(n : Int), e⟩ := by
  have hlt := paddedDigits_lt n e
  have hlen := lt_length_paddedDigits n e
  have hval := digitsToNat_paddedDigits n e
  rcases Nat.eq_zero_or_pos e with he | he
  · subst he
    have hr : renderBody n 0 = (paddedDigits n 0).map digitToChar := by
      simp [renderBody]
    have hnd : '.' ∉ (paddedDigits n 0).map digitToChar := by
      intro hm
      rcases List.mem_map.mp hm with ⟨d, hd, hdc⟩
      exact digitToChar_ne_dot (hlt d hd) hdc
    rw [hr]
    unfold parseUnsignedDec
    rw [splitDot_no_dot hnd]
    simp only [Option.getD_none, parseAllDigits, parseAllDigits_map hlt]
    have hne : (paddedDigits n 0).length + ([] : List Nat).length ≠ 0 := by
      simp only [List.length_nil]
      omega
    rw [if_neg hne, List.append_nil, hval]
    rfl
  · have hne : ¬ e = 0 := by omega
    have hr : renderBody n e =
        ((paddedDigits n e).take ((paddedDigits n e).length - e)).map digitToChar ++
          '.' :: ((paddedDigits n e).drop ((paddedDigits n e).length - e)).map digitToChar := by
      simp [renderBody, hne]
    have hip : ∀ d ∈ (paddedDigits n e).take ((paddedDigits n e).length - e), d < 10 :=
      fun d hd => hlt d (List.mem_of_mem_take hd)
    have hfp : ∀ d ∈ (paddedDigits n e).drop ((paddedDigits n e).length - e), d < 10 :=
      fun d hd => hlt d (List.mem_of_mem_drop hd)
    have hnd : '.' ∉ ((paddedDigits n e).take ((paddedDigits n e).length - e)).map digitToChar := by
      intro hm
      rcases List.mem_map.mp hm with ⟨d, hd, hdc⟩
      exact digitToChar_ne_dot (hip d hd) hdc
    rw [hr]
    unfold parseUnsignedDec
    rw [splitDot_append _ hnd]
    simp only [Option.getD_some, parseAllDigits_map hip, parseAllDigits_map hfp]
    have hlens : ((paddedDigits n e).take ((paddedDigits n e).length - e)).length +
        ((paddedDigits n e).drop ((paddedDigits n e).length - e)).length ≠ 0 := by
      simp only [List.length_take, List.length_drop]
      omega
    rw [if_neg hlens, List.take_append_drop, hval]
    have hfl : ((paddedDigits n e).drop ((paddedDigits n e).length - e)).length = e := by
      simp only [List.length_drop]
      omega
    rw [hfl]

theorem renderBody_ne_dash (n e : Nat) : ∀ c ∈ renderBody n e, c ≠ '-' := by
  intro c hc
  have hlt := paddedDigits_lt n e
  unfold renderBody at hc
  split at hc
  · rcases List.mem_map.mp hc with ⟨d, hd, hdc⟩
    exact hdc ▸ digitToChar_ne_dash (hlt d hd)
  · rcases List.mem_append.mp hc with hm | hm
    · rcases List.mem_map.mp hm with ⟨d, hd, hdc⟩
      exact hdc ▸ digitToChar_ne_dash (hlt d (List.mem_of_mem_take hd))
    · rcases List.mem_cons.mp hm with hm | hm
      · subst hm; decide
      · rcases List.mem_map.mp hm with ⟨d, hd, hdc⟩
        exact hdc ▸ digitToChar_ne_dash (hlt d (List.mem_of_mem_drop hd))

theorem renderBody_ne_nil (n e : Nat) : renderBody n e ≠ [] := by
  have hlen := lt_length_paddedDigits n e
  unfold renderBody
  split
  · intro h
    rw [List.map_eq_nil_iff] at h
    rw [h] at hlen
    simp at hlen
  · intro h
    exact absurd (List.append_eq_nil.mp h).2 (by simp)

theorem pyDecimal_renderBody (n e : Nat) :
    pyDecimal (renderBody n e) = some ⟨(n : Int), e⟩ := by
  have h1 : ¬ (renderBody n e).head? = some '-' := by
    rcases hb : renderBody n e with _ | ⟨c, rest⟩
    · simp
    · have hc : c ≠ '-' := renderBody_ne_dash n e c (by rw [hb]; simp)
      simpa using hc
  unfold pyDecimal
  rw [if_neg h1, if_neg (renderBody_ne_nil n e), parseUnsignedDec_renderBody]

/-- The conversion `Decimal(str(x))` applied to an exact decimal returns it unchanged:
the conversion in `add_movie` / `update_movie` performs no rounding. -/
theorem pyDecimalStr_eq (d : Dec) : pyDecimalStr d = some d := by
  unfold pyDecimalStr decRenderChars
  rcases lt_or_le d.mant 0 with hneg | hpos
  · rw [if_pos hneg]
    unfold pyDecimal
    rw [if_pos (by simp), List.tail_cons, parseUnsignedDec_renderBody]
    simp only [Option.map_some']
    have h2 : (⟨-((d.mant.natAbs : Int)), d.exp⟩ : Dec) = d := by
      have h3 : -((d.mant.natAbs : Int)) = d.mant := by omega
      rw [h3]
    rw [h2]
  · rw [if_neg (not_lt.mpr hpos), pyDecimal_renderBody]
    have h2 : (⟨((d.mant.natAbs : Int)), d.exp⟩ : Dec) = d := by
      have h3 : ((d.mant.natAbs : Int)) = d.mant := by omega
      rw [h3]
    rw [h2]

/-! ## DynamoDB items and tables

An item is an association list of named attribute values; attribute values
are numbers (exact decimals), strings, or nested maps — the three shapes
this program uses.  The table stores a list of items; an item's key is the
rational value of its `year` attribute together with its `title` string
(the schema's partition and sort key). -/

/-- A DynamoDB attribute value as used by this program. -/
inductive AttrVal where
  | n : Dec → AttrVal
  | s : String → AttrVal
  | m : List (String × AttrVal) → AttrVal

/-- An item (and likewise a nested attribute map): named attribute values. -/
abbrev Item := List (String × AttrVal)

/-- Look an attribute up by name. -/
def getA : Item → String → Option AttrVal
  | [], _ => none
  | (k', v) :: rest, k => if k' = k then some v else getA rest k

/-- Set an attribute, replacing it in place or appending it. -/
def setA : Item → String → AttrVal → Item
  | [], k, v => [(k, v)]
  | (k', v') :: rest, k, v =>
    if k' = k then (k, v) :: rest else (k', v') :: setA rest k v

/-- Look up a (possibly nested) document path, as used by projection and
update expressions such as `info.rating`. -/
def getPath (it : Item) : List String → Option AttrVal
  | [] => none
  | [k] => getA it k
  | k :: ks =>
    match getA it k with
    | some (AttrVal.m sub) => getPath sub ks
    | _ => none

theorem getA_setA_same (it : Item) (k : String) (v : AttrVal) :
    getA (setA it k v) k = some v := by
  induction it with
  | nil => simp [setA, getA]
  | cons p rest ih =>
    by_cases h : p.1 = k
    · simp [setA, h, getA]
    · simp [setA, h, getA, ih]

theorem getA_setA_other (it : Item) (k k' : String) (v : AttrVal) (hk : k ≠ k') :
    getA (setA it k v) k' = getA it k' := by
  induction it with
  | nil => simp [setA, getA, hk]
  | cons p rest ih =>
    by_cases h : p.1 = k
    · simp [setA, h, getA, hk]
    · simp [setA, h, getA, ih]

/-- The numeric value of the `year` key attribute of an item. -/
def yearOf (it : Item) : Option ℚ :=
  match getA it "year" with
  | some (AttrVal.n d) => some (decVal d)
  | _ => none

/-- The string value of the `title` key attribute of an item. -/
def titleOf (it : Item) : Option String :=
  match getA it "title" with
  | some (AttrVal.s t) => some t
  | _ => none

/-- The primary key of an item — `none` when a key attribute is missing or
has the wrong type. -/
def itemKey (it : Item) : Option (ℚ × String) :=
  match yearOf it, titleOf it with
  | some y, some t => some (y, t)
  | _, _ => none

/-- Does an item carry the primary key `(y, t)`? -/
def keyMatch (y : ℚ) (t : String) (it : Item) : Bool :=
  match itemKey it with
  | some (y', t') => decide (y' = y) && decide (t' = t)
  | none => false

/-- The remote table contents: a list of items. -/
abbrev Table := List Item

/-- Service-side point lookup (`get_item`): the stored item with the given
key, if any. -/
def findItem (tbl : Table) (y : ℚ) (t : String) : Option Item :=
  tbl.find? (keyMatch y t)

/-- Service-side unconditional upsert (`put_item`): replaces any item with
the same key.  Fails with a `ValidationException` when the item is missing
one of the schema's key attributes. -/
def putItem (tbl : Table) (it : Item) : Except (String × String) Table :=
  match itemKey it with
  | some (y, t) => .ok (tbl.filter (fun j => !keyMatch y t j) ++ [it])
  | none => .error ("ValidationException", "One of the required keys was not given a value")

/-- Service-side unconditional delete (`delete_item`): removes any item with
the given key; deleting an absent key is not an error. -/
def deleteItem (tbl : Table) (y : ℚ) (t : String) : Table :=
  tbl.filter (fun j => !keyMatch y t j)

theorem findItem_putItem_same (tbl tbl' : Table) (it : Item) (y : ℚ) (t : String)
    (hk : itemKey it = some (y, t)) (hp : putItem tbl it = .ok tbl') :
    findItem tbl' y t = some it := by
  unfold putItem at hp
  rw [hk] at hp
  cases hp
  unfold findItem
  induction tbl with
  | nil =>
    simp only [List.filter_nil, List.nil_append, List.find?]
    have : keyMatch y t it = true := by
      unfold keyMatch
      rw [hk]
      simp
    rw [this]
  | cons j rest ih =>
    by_cases hj : keyMatch y t j
    · simp only [List.filter_cons, hj]
      simpa using ih
    · simp only [List.filter_cons, hj]
      simp only [Bool.not_false, List.cons_append, List.find?]
      rw [Bool.not_eq_true] at hj
      rw [hj]
      exact ih

theorem findItem_deleteItem_same (tbl : Table) (y : ℚ) (t : String) :
    findItem (deleteItem tbl y t) y t = none := by
  unfold findItem deleteItem
  rw [List.find?_eq_none]
  intro j hj
  have := (List.mem_filter.mp hj).2
  simp only [Bool.not_eq_true'] at this
  simp [this]

/-! ## Paged server reads (`scan` / `query`)

Responses are paged: a request evaluates at most `limit` stored items (the
service's page size), and a truncated response carries a continuation token
(`LastEvaluatedKey`), modelled as the index where the next page starts. -/

/-- One `scan` request: evaluates up to `limit` items starting at
`startIdx`, applies the filter expression server-side to the evaluated
items, projects the survivors, and reports a continuation token when items
remain beyond the evaluated page. -/
def serverScan (tbl : Table) (limit : Nat) (f : Item → Bool) (proj : Item → Item)
    (startIdx : Nat) : List Item × Option Nat :=
  (((tbl.drop startIdx).take limit).filter f |>.map proj,
    if startIdx + limit < tbl.length then some (startIdx + limit) else none)

/-- One `query` request with an equality condition on the partition key:
returns up to `limit` matching items and a continuation token when more
matches remain. -/
def serverQuery (tbl : Table) (limit : Nat) (y : ℚ) : List Item × Option Nat :=
  ((tbl.filter (fun it => yearOf it == some y)).take limit,
    if limit < (tbl.filter (fun it => yearOf it == some y)).length then some limit else none)

/-! ## The `Movies` facade -/

/-- A Python exception, as far as this program can observe one. -/
inductive PyErr where
  | clientError (code msg : String) : PyErr
  | attributeError : PyErr
  | keyError (key : String) : PyErr
  | unboundLocalError : PyErr
  | invalidOperation : PyErr
deriving DecidableEq, Repr

/-- The state of a `Movies` object together with the remote table:
`handle` is the `self.table` member (`none` is Python's `None`), `store`
the remote table contents. -/
structure DB where
  handle : Option Unit
  store : Table

/-- A log record: the `(code, message)` pair the `logger.error` calls
interpolate into their fixed format strings. -/
abbrev Log := List (String × String)

/-- The outcome of the `table.load()` call inside `exist`. -/
inductive LoadResult where
  | ok : LoadResult
  | clientError (code msg : String) : LoadResult

/-- Model of `Movies.exist`: loads the table metadata.  The local variable `exists`
is modelled by an `Option Bool` — it is assigned `True` after a successful
load, `False` in the `ResourceNotFoundException` branch, and is left
unassigned in the branch for every other client error code, so the final
`return exists` raises `UnboundLocalError` there.  The member `self.table`
is assigned only in the `else` branch of the `try` statement. -/
def Movies.exist (db : DB) (load : LoadResult) : Except PyErr Bool × DB × Log :=
  let existsVar : Option Bool :=
    match load with
    | .ok => some true
    | .clientError code _ =>
      if code = "ResourceNotFoundException" then some false else none
  let logs : Log :=
    match load with
    | .ok => []
    | .clientError code msg =>
      if code = "ResourceNotFoundException" then [] else [(code, msg)]
  let db' : DB :=
    match load with
    | .ok => { db with handle := some () }
    | .clientError _ _ => db
  match existsVar with
  | some b => (.ok b, db', logs)
  | none => (.error .unboundLocalError, db', logs)

/-- The request issued by `dyn_resource.create_table`: each field is one of
the keyword arguments of the call. -/
structure CreateTableRequest where
  tableName : String
  keySchema : List (String × String)
  attributeDefinitions : List (String × String)
  readCapacityUnits : Nat
  writeCapacityUnits : Nat
deriving DecidableEq, Repr

/-- The fixed creation request `Movies.create_table` builds for a table
name: partition key `year` (numeric), sort key `title` (string), 1 read and
1 write capacity unit. -/
def createTableRequest (table_name : String) : CreateTableRequest :=
  { tableName := table_name
    keySchema := [("year", "HASH"), ("title", "RANGE")]
    attributeDefinitions := [("year", "N"), ("title", "S")]
    readCapacityUnits := 1
    writeCapacityUnits := 1 }

/-- A call the facade makes against the service, for tracing which requests
an operation issues and in which order. -/
inductive DynAction where
  | createTable (req : CreateTableRequest) : DynAction
  | waitUntilExists : DynAction
  | deleteTable : DynAction
  | waitUntilNotExists : DynAction
deriving DecidableEq, Repr

/-- Which step of a create/delete call sequence fails with a `ClientError`,
if any. -/
inductive SvcStep where
  | ok : SvcStep
  | failFirst (code msg : String) : SvcStep
  | failWait (code msg : String) : SvcStep

/-- Model of `Movies.create_table`: issues the creation request, assigns the new
table to `self.table`, then blocks on `wait_until_exists`.  A `ClientError`
from either call is logged and re-raised; note the member is assigned
before the wait, so a failing wait leaves the handle set. -/
def Movies.create_table (db : DB) (table_name : String) (svc : SvcStep) :
    Except PyErr Unit × DB × List DynAction × Log :=
  match svc with
  | .ok => (.ok (), { db with handle := some () },
      [.createTable (createTableRequest table_name), .waitUntilExists], [])
  | .failFirst code msg => (.error (.clientError code msg), db,
      [.createTable (createTableRequest table_name)], [(code, msg)])
  | .failWait code msg => (.error (.clientError code msg), { db with handle := some () },
      [.createTable (createTableRequest table_name), .waitUntilExists], [(code, msg)])

/-- The item `add_movie` builds from its arguments; the rating goes through
`Decimal(str(rating))`. -/
def movieItem (title : String) (year : Int) (plot : String) (rating : Dec) : Item :=
  [("year", AttrVal.n (Dec.ofInt year)),
   ("title", AttrVal.s title),
   ("info", AttrVal.m [("plot", AttrVal.s plot),
     ("rating", AttrVal.n ((pyDecimalStr rating).getD ⟨0, 0⟩))])]

/-- Model of `Movies.add_movie`: `self.table.put_item` with the movie item.  With the
handle unset, the `self.table.name` dereference in the preceding
`logger.info` call raises `AttributeError` (not caught by the
`except ClientError` handler).  `Decimal(str(rating))` cannot fail on an
exact decimal input (`pyDecimalStr_eq`), so the conversion is total here. -/
def Movies.add_movie (db : DB) (title : String) (year : Int) (plot : String)
    (rating : Dec) : Except PyErr DB :=
  match db.handle with
  | none => .error .attributeError
  | some _ =>
    match putItem db.store (movieItem title year plot rating) with
    | .ok tbl => .ok { db with store := tbl }
    | .error (code, msg) => .error (.clientError code msg)

/-- Model of `Movies.get_movie`: `self.table.get_item` with the `(year, title)` key,
then `response["Item"]`; when no item exists the response carries no
`"Item"` member and the subscript raises `KeyError("Item")`. -/
def Movies.get_movie (db : DB) (title : String) (year : Int) : Except PyErr Item :=
  match db.handle with
  | none => .error .attributeError
  | some _ =>
    match findItem db.store (year : ℚ) title with
    | some it => .ok it
    | none => .error (.keyError "Item")

/-- Model of `Movies.delete_movie`: `self.table.delete_item` with the key;
unconditional, an absent key is not an error. -/
def Movies.delete_movie (db : DB) (title : String) (year : Int) : Except PyErr DB :=
  match db.handle with
  | none => .error .attributeError
  | some _ => .ok { db with store := deleteItem db.store (year : ℚ) title }

/-- The update expression `"set info.rating=:r, info.plot=:p"` applied to a
nested attribute map: set `rating`, then `plot`. -/
def applyUpdateExpr (info : Item) (r : Dec) (p : String) : Item :=
  setA (setA info "rating" (AttrVal.n r)) "plot" (AttrVal.s p)

/-- Model of `Movies.update_movie`: `self.table.update_item` with
`UpdateExpression="set info.rating=:r, info.plot=:p"` and
`ReturnValues="UPDATED_NEW"`.  The two document paths descend into the
`info` attribute, so the service rejects the update with a
`ValidationException` when the item is absent or `info` is not a map; on
success it returns only the new values of the updated paths. -/
def Movies.update_movie (db : DB) (title : String) (year : Int) (rating : Dec)
    (plot : String) : Except PyErr (Item × DB) :=
  match db.handle with
  | none => .error .attributeError
  | some _ =>
    match pyDecimalStr rating with
    | none => .error .invalidOperation
    | some r =>
      match findItem db.store (year : ℚ) title with
      | none => .error (.clientError "ValidationException"
          "The document path provided in the update expression is invalid for update")
      | some it =>
        match getA it "info" with
        | some (AttrVal.m info) =>
          let it' := setA it "info" (AttrVal.m (applyUpdateExpr info r plot))
          let attrs : Item :=
            [("info", AttrVal.m [("rating", AttrVal.n r), ("plot", AttrVal.s plot)])]
          let store' := db.store.map (fun j => if keyMatch (year : ℚ) title j then it' else j)
          .ok (attrs, { db with store := store' })
        | _ => .error (.clientError "ValidationException"
            "The document path provided in the update expression is invalid for update")

/-- Model of `Movies.query_movies`: a single `self.table.query` request with
`KeyConditionExpression=Key("year").eq(year)`; returns `response["Items"]`
of that one response and never follows a continuation token. -/
def Movies.query_movies (db : DB) (year : Int) (limit : Nat) : Except PyErr (List Item) :=
  match db.handle with
  | none => .error .attributeError
  | some _ => .ok (serverQuery db.store limit (year : ℚ)).1

/-- The scan filter expression `Key("year").between(start, end)`:
inclusive at both ends. -/
def scanFilter (startY endY : ℚ) (it : Item) : Bool :=
  match yearOf it with
  | some y => decide (startY ≤ y) && decide (y ≤ endY)
  | none => false

/-- The scan projection expression `"#yr, title, info.rating"` (with `#yr`
standing for `year`): the returned item holds only those paths that exist
in the stored item — in particular it never carries `info.plot`. -/
def projectYearTitleRating (it : Item) : Item :=
  (match getA it "year" with
    | some v => [("year", v)]
    | none => []) ++
  (match getA it "title" with
    | some v => [("title", v)]
    | none => []) ++
  (match getPath it ["info", "rating"] with
    | some v => [("info", AttrVal.m [("rating", v)])]
    | none => [])

/-- The `while not done` loop of `scan_movies`: issue a request (passing the
previous continuation token as `ExclusiveStartKey` when one was returned),
extend the accumulator with the returned items, and stop as soon as a
response carries no `LastEvaluatedKey`.  `fuel` bounds the number of
iterations so the function is total; `none` means the bound was exhausted. -/
def scanLoop (tbl : Table) (limit : Nat) (f : Item → Bool) (proj : Item → Item) :
    Nat → Option Nat → List Item → Option (List Item)
  | 0, _, _ => none
  | fuel + 1, startKey, acc =>
    let startIdx := match startKey with | some k => k | none => 0
    let resp := serverScan tbl limit f proj startIdx
    let acc' := acc ++ resp.1
    match resp.2 with
    | none => some acc'
    | some k => scanLoop tbl limit f proj fuel (some k) acc'

/-- The year range argument of `scan_movies`. -/
structure YearRange where
  start : ℚ
  «end» : ℚ

/-- Model of `Movies.scan_movies`: pages through `self.table.scan` responses with the
between-filter on `year` and the `year, title, info.rating` projection,
accumulating the items until a response has no `LastEvaluatedKey`.  The
source's `while` loop is bounded by fuel `db.store.length + 1`, which is
enough for any positive page limit (`scanLoop_complete`); exhausted fuel is
reported as `loopFuelExhausted`. -/
def Movies.scan_movies (db : DB) (year_range : YearRange) (limit : Nat) :
    Except PyErr (List Item) :=
  match db.handle with
  | none => .error .attributeError
  | some _ =>
    match scanLoop db.store limit (scanFilter year_range.start year_range.«end»)
        projectYearTitleRating (db.store.length + 1) none [] with
    | some movies => .ok movies
    | none => .error (.clientError "LoopFuelExhausted"
        "artifact of bounding the source while loop")

/-- Model of `Movies.write_batch`: puts each item through the batch writer in order
(chunking/retry inside the SDK is not observable here). -/
def Movies.write_batch (db : DB) (movies : List Item) : Except PyErr DB :=
  match db.handle with
  | none => .error .attributeError
  | some _ =>
    match movies.foldlM putItem db.store with
    | .ok tbl => .ok { db with store := tbl }
    | .error (code, msg) => .error (.clientError code msg)

/-- Model of `Movies.delete_table`: `self.table.delete()`, then
`self.table.wait_until_not_exists()`, then `self.table = None` — the member
is cleared only after the service has confirmed the table is gone.  A
`ClientError` from either call is logged and re-raised, and the member
assignment is never reached. -/
def Movies.delete_table (db : DB) (svc : SvcStep) :
    Except PyErr Unit × DB × List DynAction × Log :=
  match db.handle with
  | none => (.error .attributeError, db, [], [])
  | some _ =>
    match svc with
    | .ok => (.ok (), { handle := none, store := [] },
        [.deleteTable, .waitUntilNotExists], [])
    | .failFirst code msg => (.error (.clientError code msg), db,
        [.deleteTable], [(code, msg)])
    | .failWait code msg => (.error (.clientError code msg), db,
        [.deleteTable, .waitUntilNotExists], [(code, msg)])

/-! ## The `create_table.py` script -/

/-- A top-level effect of running (importing) `create_table.py`. -/
inductive ScriptAction where
  | createTable (req : CreateTableRequest) : ScriptAction
  | printStatus : ScriptAction
deriving DecidableEq, Repr

/-- The guard at the bottom of `create_table.py`: it compares the string
literal `"__name__"` with the string literal `"__main__"` (instead of the
variable `__name__`). -/
def createTablePyGuard : Bool := "__name__" == "__main__"

/-- The creation request the script issues for the table `movies`. -/
def createTablePyRequest : CreateTableRequest := createTableRequest "movies"

/-- The effects of executing `create_table.py`: `dynamodb.create_table` runs
at top level, unconditionally on import; the status print runs only under
the guard. -/
def createTablePyScript : List ScriptAction :=
  [ScriptAction.createTable createTablePyRequest] ++
    (if createTablePyGuard then [ScriptAction.printStatus] else [])

/-! ## Correctness of the scan pagination loop -/

theorem scanLoop_go (tbl : Table) (limit : Nat) (f : Item → Bool) (proj : Item → Item) :
    ∀ (fuel idx : Nat) (acc : List Item), idx ≤ tbl.length →
      tbl.length + 1 ≤ idx + fuel * limit →
      scanLoop tbl limit f proj fuel (some idx) acc =
        some (acc ++ ((tbl.drop idx).filter f).map proj) := by
  intro fuel
  induction fuel with
  | zero =>
    intro idx acc h1 h2
    exfalso
    omega
  | succ fuel ih =>
    intro idx acc h1 h2
    rw [Nat.succ_mul] at h2
    simp only [scanLoop, serverScan]
    by_cases hc : idx + limit < tbl.length
    · rw [if_pos hc]
      have hrest := ih (idx + limit) (acc ++ (((tbl.drop idx).take limit).filter f).map proj)
        (le_of_lt hc) (by omega)
      show scanLoop tbl limit f proj fuel (some (idx + limit))
          (acc ++ (((tbl.drop idx).take limit).filter f).map proj) =
        some (acc ++ ((tbl.drop idx).filter f).map proj)
      rw [hrest]
      have hsplit : (tbl.drop idx).take limit ++ tbl.drop (idx + limit) = tbl.drop idx := by
        have hdd : tbl.drop (idx + limit) = (tbl.drop idx).drop limit := by
          rw [List.drop_drop, Nat.add_comm]
        rw [hdd]
        exact List.take_append_drop limit (tbl.drop idx)
      rw [List.append_assoc, ← List.map_append, ← List.filter_append, hsplit]
    · rw [if_neg hc]
      have htake : (tbl.drop idx).take limit = tbl.drop idx := by
        apply List.take_of_length_le
        simp only [List.length_drop]
        omega
      rw [htake]

theorem scanLoop_none (tbl : Table) (limit : Nat) (f : Item → Bool) (proj : Item → Item)
    (fuel : Nat) (acc : List Item) :
    scanLoop tbl limit f proj (fuel + 1) none acc =
      scanLoop tbl limit f proj (fuel + 1) (some 0) acc := rfl

/-- With any positive page limit, the pagination loop of `scan_movies`
terminates within its fuel and accumulates every stored item that passes
the filter, projected, in storage order. -/
theorem scanLoop_complete (tbl : Table) (limit : Nat) (f : Item → Bool) (proj : Item → Item)
    (hl : 0 < limit) :
    scanLoop tbl limit f proj (tbl.length + 1) none [] =
      some ((tbl.filter f).map proj) := by
  rw [scanLoop_none, scanLoop_go tbl limit f proj (tbl.length + 1) 0 []
    (Nat.zero_le _) ?_]
  · simp
  · have h := Nat.mul_le_mul_left (tbl.length + 1) hl
    simp only [Nat.mul_one] at h
    omega

/-! ## Further helper lemmas -/

theorem decVal_ofInt (n : Int) : decVal (Dec.ofInt n) = (n : ℚ) := by
  simp [decVal, Dec.ofInt]

theorem itemKey_movieItem (title : String) (year : Int) (plot : String) (rating : Dec) :
    itemKey (movieItem title year plot rating) = some ((year : ℚ), title) := by
  simp [itemKey, yearOf, titleOf, movieItem, getA, decVal_ofInt]

theorem getA_append (a b : Item) (k : String) :
    getA (a ++ b) k = match getA a k with | some v => some v | none => getA b k := by
  induction a with
  | nil => simp [getA]
  | cons p rest ih =>
    by_cases h : p.1 = k
    · simp [getA, h]
    · simp [getA, h, ih]

theorem getA_project_info (j : Item) :
    getA (projectYearTitleRating j) "info" =
      (getPath j ["info", "rating"]).map (fun v => AttrVal.m [("rating", v)]) := by
  unfold projectYearTitleRating
  rcases hy : getA j "year" with _ | vy <;>
    rcases ht : getA j "title" with _ | vt <;>
      rcases hr : getPath j ["info", "rating"] with _ | vr <;>
        simp [getA_append, getA]

theorem getPath_project_info_plot (j : Item) :
    getPath (projectYearTitleRating j) ["info", "plot"] = none := by
  have h := getA_project_info j
  unfold getPath
  rcases hr : getPath j ["info", "rating"] with _ | vr
  all_goals rw [hr] at h
  all_goals simp only [Option.map_none', Option.map_some'] at h
  all_goals rw [h]
  all_goals simp [getPath, getA]

theorem find?_map_if {p : Item → Bool} {x : Item} (hx : p x = true) :
    ∀ l : List Item, (l.map (fun j => if p j then x else j)).find? p =
      (l.find? p).map (fun _ => x) := by
  intro l
  induction l with
  | nil => simp
  | cons j rest ih =>
    by_cases hj : p j
    · simp only [List.map_cons, if_pos hj, List.find?_cons_of_pos _ hx,
        List.find?_cons_of_pos _ hj, Option.map_some']
    · simp only [List.map_cons, if_neg hj, List.find?_cons_of_neg _ hj, ih]

/-! ## The claims -/

/-- C1: for every valid input (year, title, plot, rating), calling
`add_movie` (put) and then `get_movie` (get) with the same (title, year)
returns a record whose `info.rating` equals the original decimal value
exactly — the stored attribute is the very decimal that was passed in, with
no floating-point rounding. -/
theorem c1_put_then_get_rating_exact (s : Table) (title : String) (year : Int)
    (plot : String) (rating : Dec) :
    ∃ db' : DB, Movies.add_movie ⟨some (), s⟩ title year plot rating = .ok db' ∧
      ∃ it : Item, Movies.get_movie db' title year = .ok it ∧
        getPath it ["info", "rating"] = some (AttrVal.n rating) ∧
        ∀ d : Dec, getPath it ["info", "rating"] = some (AttrVal.n d) →
          decVal d = decVal rating := by
  have hk := itemKey_movieItem title year plot rating
  have hput : putItem s (movieItem title year plot rating) =
      .ok (s.filter (fun j => !keyMatch (year : ℚ) title j) ++
        [movieItem title year plot rating]) := by
    unfold putItem
    rw [hk]
  refine ⟨⟨some (), s.filter (fun j => !keyMatch (year : ℚ) title j) ++
    [movieItem title year plot rating]⟩, ?_, ?_⟩
  · unfold Movies.add_movie
    rw [hput]
  · have hfind := findItem_putItem_same s _ (movieItem title year plot rating)
      (year : ℚ) title hk hput
    refine ⟨movieItem title year plot rating, ?_, ?_, ?_⟩
    · unfold Movies.get_movie
      simp only [hfind]
    · simp [movieItem, getPath, getA, pyDecimalStr_eq]
    · intro d hd
      simp [movieItem, getPath, getA, pyDecimalStr_eq] at hd
      rw [hd]

/-- C2 counterexample: on a client error whose code is not
`"ResourceNotFoundException"` (here `"AccessDeniedException"`), `exist` does
NOT return normally: the local variable `exists` was never assigned in that
branch, so the final `return exists` raises `UnboundLocalError`. -/
theorem c2_exist_counterexample :
    (Movies.exist ⟨none, []⟩ (.clientError "AccessDeniedException" "denied")).1 =
      .error PyErr.unboundLocalError ∧
    ∀ b : Bool, (Movies.exist ⟨none, []⟩
      (.clientError "AccessDeniedException" "denied")).1 ≠ .ok b := by
  constructor
  · rfl
  · intro b h
    cases h

/-- C2 (amended): for every service error whose code is not
`"ResourceNotFoundException"`, `exist` logs the error and then raises
`UnboundLocalError` (the result variable is never assigned in that branch)
instead of returning normally, leaving the cached table handle unchanged
(hence still unset on a fresh instance); for a
`"ResourceNotFoundException"` error it returns `false` without caching the
handle. -/
theorem c2_exist_error_behaviour (db : DB) (code msg : String)
    (h : code ≠ "ResourceNotFoundException") :
    Movies.exist db (.clientError code msg) =
      (.error PyErr.unboundLocalError, db, [(code, msg)]) ∧
    ∀ m : String, Movies.exist db (.clientError "ResourceNotFoundException" m) =
      (.ok false, db, []) := by
  constructor
  · unfold Movies.exist
    simp [h]
  · intro m
    rfl

/-- C2 witness at a concrete non-"not found" error code. -/
theorem c2_exist_error_behaviour_witness :
    "AccessDeniedException" ≠ "ResourceNotFoundException" ∧
    (Movies.exist ⟨none, []⟩ (.clientError "AccessDeniedException" "denied") =
      (.error PyErr.unboundLocalError, ⟨none, []⟩, [("AccessDeniedException", "denied")]) ∧
    ∀ m : String, Movies.exist ⟨none, []⟩ (.clientError "ResourceNotFoundException" m) =
      (.ok false, ⟨none, []⟩, [])) :=
  ⟨by decide, c2_exist_error_behaviour ⟨none, []⟩ "AccessDeniedException" "denied" (by decide)⟩

/-- C3: for every year range and any positive service page limit,
`scan_movies` returns exactly the stored records whose `year` lies in the
inclusive range, each projected to `year`, `title` and `info.rating` (never
carrying an `info.plot` path), accumulated page by page until a response
has no continuation token. -/
theorem c3_scan_movies_range_projection (s : Table) (r : YearRange) (limit : Nat)
    (hl : 0 < limit) :
    Movies.scan_movies ⟨some (), s⟩ r limit =
      .ok ((s.filter (scanFilter r.start r.«end»)).map projectYearTitleRating) ∧
    ∀ it ∈ (s.filter (scanFilter r.start r.«end»)).map projectYearTitleRating,
      getPath it ["info", "plot"] = none := by
  constructor
  · unfold Movies.scan_movies
    rw [scanLoop_complete s limit (scanFilter r.start r.«end») projectYearTitleRating hl]
  · intro it hit
    rcases List.mem_map.mp hit with ⟨j, _, hj⟩
    rw [← hj]
    exact getPath_project_info_plot j

/-- C3 witness: a one-item store scanned with page limit 1. -/
theorem c3_scan_movies_range_projection_witness :
    0 < 1 ∧
    Movies.scan_movies ⟨some (), [movieItem "The Matrix" 1999 "hacker" ⟨87, 1⟩]⟩
        ⟨(1950 : ℚ), (2015 : ℚ)⟩ 1 =
      .ok (([movieItem "The Matrix" 1999 "hacker" ⟨87, 1⟩].filter
          (scanFilter (1950 : ℚ) (2015 : ℚ))).map projectYearTitleRating) :=
  ⟨Nat.one_pos,
    (c3_scan_movies_range_projection [movieItem "The Matrix" 1999 "hacker" ⟨87, 1⟩]
      ⟨(1950 : ℚ), (2015 : ℚ)⟩ 1 Nat.one_pos).1⟩

/-- C4: `query_movies` issues a single request with an equality condition on
the partition key and returns that response's items unprojected — exactly
the stored records with the given year whenever they fit in the single
(unpaginated) response page. -/
theorem c4_query_movies_single_request (s : Table) (year : Int) (limit : Nat)
    (h : (s.filter (fun it => yearOf it == some ((year : Int) : ℚ))).length ≤ limit) :
    Movies.query_movies ⟨some (), s⟩ year limit =
      .ok (s.filter (fun it => yearOf it == some ((year : Int) : ℚ))) := by
  unfold Movies.query_movies serverQuery
  rw [List.take_of_length_le h]

/-- C4 witness: a two-item store queried for 1999 with page limit 2 (large
enough that the single response is not truncated). -/
theorem c4_query_movies_single_request_witness :
    ([movieItem "The Matrix" 1999 "hacker" ⟨87, 1⟩,
      movieItem "The Shawshank Redemption" 1994 "prison" ⟨87, 1⟩].filter
        (fun it => yearOf it == some ((1999 : Int) : ℚ))).length ≤ 2 ∧
    Movies.query_movies ⟨some (), [movieItem "The Matrix" 1999 "hacker" ⟨87, 1⟩,
        movieItem "The Shawshank Redemption" 1994 "prison" ⟨87, 1⟩]⟩ 1999 2 =
      .ok ([movieItem "The Matrix" 1999 "hacker" ⟨87, 1⟩,
        movieItem "The Shawshank Redemption" 1994 "prison" ⟨87, 1⟩].filter
          (fun it => yearOf it == some ((1999 : Int) : ℚ))) := by
  have h : ([movieItem "The Matrix" 1999 "hacker" ⟨87, 1⟩,
      movieItem "The Shawshank Redemption" 1994 "prison" ⟨87, 1⟩].filter
        (fun it => yearOf it == some ((1999 : Int) : ℚ))).length ≤ 2 := by
    refine le_trans (List.length_filter_le _ _) ?_
    simp
  exact ⟨h, c4_query_movies_single_request _ 1999 2 h⟩

/-- C5: for every existing record (whose `info` attribute is a map, as every
record written by this program has), `update_movie` changes only the nested
fields `info.rating` and `info.plot`, leaves `year`, `title` and every other
attribute — top level or inside `info` — unchanged, leaves every other
stored record in place, and returns exactly the two updated values. -/
theorem c5_update_movie_frame (s : Table) (title : String) (year : Int) (rating : Dec)
    (plot : String) (it info : Item)
    (hfind : findItem s (year : ℚ) title = some it)
    (hinfo : getA it "info" = some (AttrVal.m info)) :
    ∃ db' : DB,
      Movies.update_movie ⟨some (), s⟩ title year rating plot =
        .ok ([("info", AttrVal.m [("rating", AttrVal.n rating), ("plot", AttrVal.s plot)])],
          db') ∧
      db'.handle = some () ∧
      ∃ it' : Item,
        findItem db'.store (year : ℚ) title = some it' ∧
        getA it' "year" = getA it "year" ∧
        getA it' "title" = getA it "title" ∧
        (∀ k, k ≠ "info" → getA it' k = getA it k) ∧
        getPath it' ["info", "rating"] = some (AttrVal.n rating) ∧
        getPath it' ["info", "plot"] = some (AttrVal.s plot) ∧
        (∀ k, k ≠ "rating" → k ≠ "plot" →
          getPath it' ["info", k] = getPath it ["info", k]) ∧
        (∀ j ∈ s, keyMatch (year : ℚ) title j = false → j ∈ db'.store) := by
  have heq : Movies.update_movie ⟨some (), s⟩ title year rating plot =
      .ok ([("info", AttrVal.m [("rating", AttrVal.n rating), ("plot", AttrVal.s plot)])],
        ⟨some (), s.map (fun j => if keyMatch (year : ℚ) title j
          then setA it "info" (AttrVal.m (applyUpdateExpr info rating plot)) else j)⟩) := by
    unfold Movies.update_movie
    simp only [pyDecimalStr_eq, hfind, hinfo]
  refine ⟨_, heq, rfl, setA it "info" (AttrVal.m (applyUpdateExpr info rating plot)),
    ?_, ?_, ?_, ?_, ?_, ?_, ?_, ?_⟩
  · have hYear : getA (setA it "info" (AttrVal.m (applyUpdateExpr info rating plot))) "year" =
        getA it "year" := getA_setA_other it "info" "year" _ (by decide)
    have hTitle : getA (setA it "info" (AttrVal.m (applyUpdateExpr info rating plot))) "title" =
        getA it "title" := getA_setA_other it "info" "title" _ (by decide)
    have hkey : itemKey (setA it "info" (AttrVal.m (applyUpdateExpr info rating plot))) =
        itemKey it := by
      unfold itemKey yearOf titleOf
      rw [hYear, hTitle]
    have hmatch : keyMatch (year : ℚ) title it = true := List.find?_some hfind
    have hx : keyMatch (year : ℚ) title
        (setA it "info" (AttrVal.m (applyUpdateExpr info rating plot))) = true := by
      unfold keyMatch at hmatch ⊢
      rw [hkey]
      exact hmatch
    unfold findItem at hfind ⊢
    rw [find?_map_if hx s, hfind]
    rfl
  · exact getA_setA_other it "info" "year" _ (by decide)
  · exact getA_setA_other it "info" "title" _ (by decide)
  · intro k hk
    exact getA_setA_other it "info" k _ (Ne.symm hk)
  · show getPath _ ["info", "rating"] = _
    unfold getPath
    rw [getA_setA_same]
    unfold applyUpdateExpr
    show getA _ "rating" = _
    rw [getA_setA_other _ "plot" "rating" _ (by decide), getA_setA_same]
  · show getPath _ ["info", "plot"] = _
    unfold getPath
    rw [getA_setA_same]
    unfold applyUpdateExpr
    show getA _ "plot" = _
    rw [getA_setA_same]
  · intro k hkr hkp
    show getPath _ ["info", k] = getPath it ["info", k]
    unfold getPath
    rw [getA_setA_same, hinfo]
    unfold applyUpdateExpr
    show getA _ k = getA info k
    rw [getA_setA_other _ "plot" k _ (Ne.symm hkp), getA_setA_other _ "rating" k _ (Ne.symm hkr)]
  · intro j hj hkm
    have hid : (fun j => if keyMatch (year : ℚ) title j
        then setA it "info" (AttrVal.m (applyUpdateExpr info rating plot)) else j) j = j := by
      simp [hkm]
    have := List.mem_map_of_mem (fun j => if keyMatch (year : ℚ) title j
      then setA it "info" (AttrVal.m (applyUpdateExpr info rating plot)) else j) hj
    rw [hid] at this
    exact this

/-- C5 witness: a one-movie store updated in place. -/
theorem c5_update_movie_frame_witness :
    findItem [movieItem "Star wars" 1977 "far away" ⟨50, 1⟩] ((1977 : Int) : ℚ)
        "Star wars" = some (movieItem "Star wars" 1977 "far away" ⟨50, 1⟩) ∧
    getA (movieItem "Star wars" 1977 "far away" ⟨50, 1⟩) "info" =
      some (AttrVal.m [("plot", AttrVal.s "far away"),
        ("rating", AttrVal.n ((pyDecimalStr ⟨50, 1⟩).getD ⟨0, 0⟩))]) ∧
    (∃ db' : DB,
      Movies.update_movie ⟨some (), [movieItem "Star wars" 1977 "far away" ⟨50, 1⟩]⟩
          "Star wars" 1977 ⟨87, 1⟩ "updated plot" =
        .ok ([("info", AttrVal.m [("rating", AttrVal.n ⟨87, 1⟩),
          ("plot", AttrVal.s "updated plot")])], db') ∧
      db'.handle = some () ∧
      ∃ it' : Item,
        findItem db'.store ((1977 : Int) : ℚ) "Star wars" = some it' ∧
        getA it' "year" = getA (movieItem "Star wars" 1977 "far away" ⟨50, 1⟩) "year" ∧
        getA it' "title" = getA (movieItem "Star wars" 1977 "far away" ⟨50, 1⟩) "title" ∧
        (∀ k, k ≠ "info" →
          getA it' k = getA (movieItem "Star wars" 1977 "far away" ⟨50, 1⟩) k) ∧
        getPath it' ["info", "rating"] = some (AttrVal.n ⟨87, 1⟩) ∧
        getPath it' ["info", "plot"] = some (AttrVal.s "updated plot") ∧
        (∀ k, k ≠ "rating" → k ≠ "plot" →
          getPath it' ["info", k] =
            getPath (movieItem "Star wars" 1977 "far away" ⟨50, 1⟩) ["info", k]) ∧
        (∀ j ∈ [movieItem "Star wars" 1977 "far away" ⟨50, 1⟩],
          keyMatch ((1977 : Int) : ℚ) "Star wars" j = false → j ∈ db'.store)) := by
  have hfind : findItem [movieItem "Star wars" 1977 "far away" ⟨50, 1⟩] ((1977 : Int) : ℚ)
      "Star wars" = some (movieItem "Star wars" 1977 "far away" ⟨50, 1⟩) := by
    unfold findItem
    rw [List.find?_cons_of_pos]
    unfold keyMatch
    rw [itemKey_movieItem]
    simp
  have hinfo : getA (movieItem "Star wars" 1977 "far away" ⟨50, 1⟩) "info" =
      some (AttrVal.m [("plot", AttrVal.s "far away"),
        ("rating", AttrVal.n ((pyDecimalStr ⟨50, 1⟩).getD ⟨0, 0⟩))]) := by
    simp [movieItem, getA]
  exact ⟨hfind, hinfo,
    c5_update_movie_frame [movieItem "Star wars" 1977 "far away" ⟨50, 1⟩]
      "Star wars" 1977 ⟨87, 1⟩ "updated plot" _ _ hfind hinfo⟩

/-- C6: deleting a key that has no stored record does not raise, and a
subsequent `get_movie` on that key fails with the not-found-shaped
`KeyError("Item")` (the response carries no `"Item"` member) instead of
returning a record. -/
theorem c6_delete_absent_then_get_not_found (s : Table) (title : String) (year : Int)
    (_habs : findItem s (year : ℚ) title = none) :
    ∃ db' : DB, Movies.delete_movie ⟨some (), s⟩ title year = .ok db' ∧
      Movies.get_movie db' title year = .error (.keyError "Item") := by
  refine ⟨⟨some (), deleteItem s (year : ℚ) title⟩, rfl, ?_⟩
  unfold Movies.get_movie
  simp only [findItem_deleteItem_same]

/-- C6 witness: an empty store. -/
theorem c6_delete_absent_then_get_not_found_witness :
    findItem [] ((2015 : Int) : ℚ) "The Big New Movie" = none ∧
    (∃ db' : DB,
      Movies.delete_movie ⟨some (), []⟩ "The Big New Movie" 2015 = .ok db' ∧
      Movies.get_movie db' "The Big New Movie" 2015 = .error (.keyError "Item")) :=
  ⟨rfl, c6_delete_absent_then_get_not_found [] "The Big New Movie" 2015 rfl⟩

/-- C7: `delete_table` clears the cached table handle only after the service
confirms the table no longer exists (`delete` then `wait_until_not_exists`,
then the member assignment); when either service call fails, the error is
logged and re-raised as a `ClientError` and the cached handle is left
unchanged — still set. -/
theorem c7_delete_table_handle_lifecycle (s : Table) :
    Movies.delete_table ⟨some (), s⟩ .ok =
      (.ok (), ⟨none, []⟩, [.deleteTable, .waitUntilNotExists], []) ∧
    (∀ code msg, Movies.delete_table ⟨some (), s⟩ (.failFirst code msg) =
      (.error (.clientError code msg), ⟨some (), s⟩, [.deleteTable], [(code, msg)])) ∧
    (∀ code msg, Movies.delete_table ⟨some (), s⟩ (.failWait code msg) =
      (.error (.clientError code msg), ⟨some (), s⟩, [.deleteTable, .waitUntilNotExists],
        [(code, msg)])) :=
  ⟨rfl, fun _ _ => rfl, fun _ _ => rfl⟩

/-- C8: `create_table` issues creation with exactly the fixed schema —
partition key `year` of numeric type (`HASH`/`N`), sort key `title` of
string type (`RANGE`/`S`) — and provisioned throughput of 1 read and 1
write unit, then blocks until the service reports the table active
(`waitUntilExists` follows the creation request in the trace); on any
client-reported fault the error is logged and re-raised. -/
theorem c8_create_table_schema_and_errors (db : DB) (name : String) :
    createTableRequest name = ⟨name, [("year", "HASH"), ("title", "RANGE")],
      [("year", "N"), ("title", "S")], 1, 1⟩ ∧
    Movies.create_table db name .ok = (.ok (), { db with handle := some () },
      [.createTable (createTableRequest name), .waitUntilExists], []) ∧
    (∀ code msg, Movies.create_table db name (.failFirst code msg) =
      (.error (.clientError code msg), db, [.createTable (createTableRequest name)],
        [(code, msg)])) ∧
    (∀ code msg, Movies.create_table db name (.failWait code msg) =
      (.error (.clientError code msg), { db with handle := some () },
        [.createTable (createTableRequest name), .waitUntilExists], [(code, msg)])) :=
  ⟨rfl, rfl, fun _ _ => rfl, fun _ _ => rfl⟩

/-- C9: in `create_table.py` the guard compares the string literal
`"__name__"` with the string literal `"__main__"`, so it is false for every
execution and the table-status print is unreachable, while the table
creation itself runs unconditionally at import. -/
theorem c9_guard_compares_literals :
    createTablePyGuard = false ∧
    createTablePyScript = [ScriptAction.createTable (createTableRequest "movies")] ∧
    ScriptAction.printStatus ∉ createTablePyScript := by
  refine ⟨rfl, rfl, ?_⟩
  intro h
  simp [createTablePyScript, createTablePyRequest, createTablePyGuard] at h

/-- C10: every item and bulk operation dereferences the cached table handle
without checking it: on a freshly constructed instance (handle unset) each
of `add_movie`, `get_movie`, `update_movie`, `delete_movie`,
`query_movies`, `scan_movies`, `write_batch` and `delete_table` fails with
an `AttributeError` — which is a different error from any service
`ClientError`. -/
theorem c10_unset_handle_attribute_error (s : Table) :
    (∀ t y p r, Movies.add_movie ⟨none, s⟩ t y p r = .error .attributeError) ∧
    (∀ t y, Movies.get_movie ⟨none, s⟩ t y = .error .attributeError) ∧
    (∀ t y r p, Movies.update_movie ⟨none, s⟩ t y r p = .error .attributeError) ∧
    (∀ t y, Movies.delete_movie ⟨none, s⟩ t y = .error .attributeError) ∧
    (∀ y l, Movies.query_movies ⟨none, s⟩ y l = .error .attributeError) ∧
    (∀ r l, Movies.scan_movies ⟨none, s⟩ r l = .error .attributeError) ∧
    (∀ ms, Movies.write_batch ⟨none, s⟩ ms = .error .attributeError) ∧
    (∀ svc, (Movies.delete_table ⟨none, s⟩ svc).1 = .error .attributeError) ∧
    (∀ code msg, PyErr.attributeError ≠ PyErr.clientError code msg) :=
  ⟨fun _ _ _ _ => rfl, fun _ _ => rfl, fun _ _ _ _ => rfl, fun _ _ => rfl,
    fun _ _ => rfl, fun _ _ => rfl, fun _ => rfl, fun _ => rfl,
    fun _ _ h => PyErr.noConfusion h⟩
